import Mathlib

/-!
Shallow embedding of the OAuth credmon webserver
(src/credmon/CredentialMonitors/OAuthCredmonWebserver/OAuthCredmonWebserver.py).

Python dicts are modelled as insertion-ordered association lists, the Flask
session as an explicit record threaded through the handlers, and the network
and filesystem effects of one request as an explicit record of external
inputs.  Raised Python exceptions are modelled with an explicit error kind in
an Except result.
-/

/-- Python dict lookup d.get(q) on an insertion-ordered association list. -/
def alookup {α : Type} : List (String × α) → String → Option α
  | [], _ => none
  | (k, v) :: rest, q => if k = q then some v else alookup rest q

/-- Python dict assignment d[k] = v: replace the value in place when the key
already exists (keeping its position), otherwise append the new key. -/
def dictInsert {α : Type} : List (String × α) → String → α → List (String × α)
  | [], k, v => [(k, v)]
  | (k1, v1) :: rest, k, v =>
    if k1 = k then (k, v) :: rest else (k1, v1) :: dictInsert rest k v

/-- Update the value stored at key k in place, leaving other entries alone
(the Python pattern d[k][field] = v after d[k] was checked to exist). -/
def dictUpdate {α : Type} : List (String × α) → String → (α → α) → List (String × α)
  | [], _, _ => []
  | (k1, v1) :: rest, k, f =>
    if k1 = k then (k1, f v1) :: dictUpdate rest k f
    else (k1, v1) :: dictUpdate rest k f

/-- Python dict pop of key k: the remaining entries, in order. -/
def aerase : List (String × String) → String → List (String × String)
  | [], _ => []
  | (k1, v1) :: rest, k =>
    if k1 = k then aerase rest k else (k1, v1) :: aerase rest k

/-- Python str.rstrip of the single character given to it at line 46:
drop every trailing space. -/
def rstripSpaces (s : String) : String :=
  String.mk ((s.data.reverse.dropWhile (fun c => c = ' ')).reverse)

/-- The whitespace set of Python str.strip with no argument (ASCII part). -/
def pyIsSpace (c : Char) : Bool :=
  c = ' ' || c = '\t' || c = '\n' || c = '\r' || c = '\x0b' || c = '\x0c'

/-- Python s.rstrip().lstrip() as applied to each scope at lines 168 and 198. -/
def pyStrip (s : String) : String :=
  String.mk (((s.data.dropWhile pyIsSpace).reverse.dropWhile pyIsSpace).reverse)

/-- Helper for pySplitComma, accumulating the current field in reverse. -/
def splitCommaAux : List Char → List Char → List String
  | [], cur => [String.mk cur.reverse]
  | c :: rest, cur =>
    if c = ',' then String.mk cur.reverse :: splitCommaAux rest []
    else splitCommaAux rest (c :: cur)

/-- Python s.split of a comma: the empty string yields one empty field. -/
def pySplitComma (s : String) : List String := splitCommaAux s.data []

/-- Line 45: get_provider_str joins the provider and handle with one space
and strips trailing spaces, so an empty handle leaves just the provider. -/
def get_provider_str (provider handle : String) : String :=
  rstripSpaces (provider ++ " " ++ handle)

/-- One record of the key file, as consumed by classad.parseAds.  Provider is
the one field every caller reads unconditionally; the rest are looked up and
may be absent (a missing required field raises a KeyError at its use site). -/
structure ClassAd where
  Provider : String
  Handle : Option String := none
  ClientId : Option String := none
  ClientSecret : Option String := none
  AuthorizationUrl : Option String := none
  TokenUrl : Option String := none
  ReturnUrl : Option String := none
  UserUrl : Option String := none
  LocalUser : Option String := none
  Scopes : Option String := none
  Audience : Option String := none
  deriving DecidableEq

/-- The display name of a record, as computed at lines 60 and 164. -/
def ClassAd.display (ad : ClassAd) : String :=
  get_provider_str ad.Provider (ad.Handle.getD "")

/-- The per-provider sub-dict of the session.  Keys that the code adds only
later (state, username) are modelled as Option fields. -/
structure ProviderSession where
  logged_in : Bool := false
  requested_scopes : Option (List String) := none
  requested_resource : Option String := none
  state : Option String := none
  username : Option String := none
  deriving DecidableEq

/-- The Flask session dict built by the key route and mutated by the two
OAuth handlers. -/
structure Session where
  key_path : String
  providers : List (String × ProviderSession)
  logged_in : Bool
  local_username : String
  outgoing_provider : Option String := none
  deriving DecidableEq

/-- Kinds of Python exception the embedded handlers can raise.  osError
stands for the OSError of a failed atomic_rename (the PersistenceError of
the spec); it is listed here to state that it is never what surfaces. -/
inductive ErrKind where
  | unknownProvider
  | providerNotInKeyFile
  | csrfMismatch
  | tokenExchange
  | connectionError
  | keyError
  | attributeError
  | nameError
  | osError
  deriving DecidableEq

/-- External interactions performed by oauth_return, in order: the key-file
re-parse of get_provider_ad, then the two outbound network calls. -/
inductive NetCall where
  | descriptorLookup
  | tokenExchange
  | identityFetch
  deriving DecidableEq

/-- Line 143: re.match with the pattern 0-9a-fA-F repeated, unanchored at the
end, is truthy exactly when the key begins with at least one hex digit. -/
def isHexChar (c : Char) : Bool :=
  (decide ('0' ≤ c) && decide (c ≤ '9')) ||
  (decide ('a' ≤ c) && decide (c ≤ 'f')) ||
  (decide ('A' ≤ c) && decide (c ≤ 'F'))

/-- Truth value of re.match at line 143 on the routed key string. -/
def re_match_hex (s : String) : Bool :=
  match s.data with
  | [] => false
  | c :: _ => isHexChar c

/-- Lines 163-170: the fresh per-provider dict seeded for each parsed record,
with logged_in false, the comma-split stripped scopes when Scopes is present,
and the audience when Audience is present. -/
def initProvider (ad : ClassAd) : ProviderSession :=
  { logged_in := false
  , requested_scopes := ad.Scopes.map (fun s => (pySplitComma s).map pyStrip)
  , requested_resource := ad.Audience
  , state := none
  , username := none }

/-- One step of the provider loop of the key route: store the fresh dict
under the display name, overwriting any earlier record with the same name. -/
def addProviderAd (m : List (String × ProviderSession)) (ad : ClassAd) :
    List (String × ProviderSession) :=
  dictInsert m ad.display (initProvider ad)

/-- Lines 152-175: the session dict built from the parsed records.  An empty
record list leaves the loop variable unbound and line 173 raises a NameError;
a last record without LocalUser raises a KeyError there. -/
def key_session (ads : List ClassAd) (key_path : String) : Except ErrKind Session :=
  match ads.getLast? with
  | none => Except.error ErrKind.nameError
  | some lastAd =>
    match lastAd.LocalUser with
    | none => Except.error ErrKind.keyError
    | some lu =>
      Except.ok
        { key_path := key_path
        , providers := List.foldl addProviderAd [] ads
        , logged_in := false
        , local_username := lu
        , outgoing_provider := none }

/-- Phases of the key route, in source order: the regex check at line 143,
the existence check at line 149, then parsing the key file. -/
inductive KeyStep where
  | formatError
  | notFound
  | parsed (r : Except ErrKind Session)

/-- Lines 140-177: the key route.  fileExists models os.path.exists on the
joined key path; ads models the parsed contents of the key file. -/
def key_route (k : String) (fileExists : Bool) (ads : List ClassAd)
    (key_path : String) : KeyStep :=
  if re_match_hex k = false then KeyStep.formatError
  else if fileExists = false then KeyStep.notFound
  else KeyStep.parsed (key_session ads key_path)

/-- The last record of the file whose display name matches, i.e. the record
whose fresh dict survives the overwriting loop of the key route. -/
def lastAdFor : List ClassAd → String → Option ClassAd
  | [], _ => none
  | ad :: rest, name =>
    match lastAdFor rest name with
    | some a => some a
    | none => if ad.display = name then some ad else none

/-- Lines 54-69: get_provider_ad re-parses the key file and returns the first
record whose display name matches, raising when none does. -/
def get_provider_ad (provider : String) (ads : List ClassAd) :
    Except ErrKind ClassAd :=
  match ads.find? (fun ad => ad.display = provider) with
  | some ad => Except.ok ad
  | none => Except.error ErrKind.providerNotInKeyFile

/-- Lines 179-227: the login route.  It checks membership of the routed name
in the session providers, loads the descriptor (requiring ClientId,
ReturnUrl and AuthorizationUrl), stores the freshly generated CSRF state on
the provider sub-dict and records the outgoing provider on the session.
freshState models the state string produced by OAuth2Session. -/
def oauth_login (sess : Session) (provider : String) (ads : List ClassAd)
    (freshState : String) : Except ErrKind Session :=
  match alookup sess.providers provider with
  | none => Except.error ErrKind.unknownProvider
  | some _ =>
    match get_provider_ad provider ads with
    | Except.error e => Except.error e
    | Except.ok ad =>
      match ad.ClientId, ad.ReturnUrl, ad.AuthorizationUrl with
      | some _, some _, some _ =>
        Except.ok
          { sess with
            providers :=
              dictUpdate sess.providers provider
                (fun ps => { ps with state := some freshState })
          , outgoing_provider := some provider }
      | _, _, _ => Except.error ErrKind.keyError

/-- Outcome of the best-effort identity fetch at lines 266-267: a parsed JSON
object, a body that is not JSON (response.json raises ValueError), or a
failure of the HTTP GET itself (a requests exception, not a ValueError). -/
inductive IdentityResult where
  | jsonBody (fields : List (String × String))
  | nonJsonBody
  | connectionError
  deriving DecidableEq

/-- The external inputs one oauth_return request can observe: the current key
file contents, the state embedded in the callback URL, whether the provider
accepts the authorization code, the token fields it would return, the
identity endpoint outcome, and whether an atomic_rename raises OSError. -/
structure World where
  ads : List ClassAd
  callbackState : String
  codeValid : Bool
  tokenFields : List (String × String)
  identity : IdentityResult
  renameFails : Bool
  deriving DecidableEq

/-- Modelled from the spec: OAuth2Session.fetch_token (requests_oauthlib,
code not part of this repository) first parses the authorization response
URL and compares its embedded state with the stored state, raising a
mismatch error before any network traffic; only on a match does it POST the
code to the token endpoint, where the provider either returns the token
fields or rejects the exchange.  The spec records this ordering: the check
"must happen before any network call". -/
def fetch_token (storedState : String) (w : World) :
    Except ErrKind (List (String × String)) × List NetCall :=
  if w.callbackState = storedState then
    (if w.codeValid = true then (Except.ok w.tokenFields, [NetCall.tokenExchange])
     else (Except.error ErrKind.tokenExchange, [NetCall.tokenExchange]))
  else (Except.error ErrKind.csrfMismatch, [])

/-- Lines 265-275: the username resolved from the identity response.  Only a
ValueError (non-JSON body) is caught by the except clause; a failure of the
GET itself propagates out of the handler. -/
def resolve_username (idr : IdentityResult) : Except ErrKind String :=
  match idr with
  | IdentityResult.jsonBody fields =>
    match alookup fields "login" with
    | some v => Except.ok v
    | none =>
      match alookup fields "sub" with
      | some v => Except.ok v
      | none => Except.ok "Unknown"
  | IdentityResult.nonJsonBody => Except.ok "Unknown"
  | IdentityResult.connectionError => Except.error ErrKind.connectionError

/-- Lines 277-288: pop refresh_token from the token dict when present.  The
result is the remaining access-token fields, the refresh-token string (empty
when the provider issued none) and the use_refresh_token flag. -/
def split_token (token : List (String × String)) :
    List (String × String) × String × Bool :=
  match alookup token "refresh_token" with
  | some v => (aerase token "refresh_token", v, true)
  | none => (token, "", false)

/-- Lines 291-296: the metadata dict written alongside the tokens. -/
structure Metadata where
  client_id : String
  client_secret : String
  token_url : String
  use_refresh_token : Bool
  deriving DecidableEq

/-- The three credential files written for one provider. -/
structure Triad where
  access : List (String × String)
  refresh : List (String × String)
  meta : Metadata
  deriving DecidableEq

/-- An argument passed to LoggerWriter.write: either an actual string or the
OSError exception object itself, as at line 330. -/
inductive PyVal where
  | str (s : String)
  | osErr
  deriving DecidableEq

/-- Lines 28-30: LoggerWriter.write logs message.rstrip unless the message is
a bare newline.  Called with the OSError object instead of a string, the
rstrip attribute access raises AttributeError. -/
def loggerWriter_write (message : PyVal) : Except ErrKind Unit :=
  match message with
  | PyVal.str _ => Except.ok ()
  | PyVal.osErr => Except.error ErrKind.attributeError

/-- Lines 324-330: the three atomic_rename calls wrapped in a try block whose
except OSError handler does sys.stderr.write of the exception object.  When a
rename raises, the handler swallows the OSError and tries to log it, but the
log call itself raises AttributeError, which propagates. -/
def rename_phase (renameFails : Bool) : Except ErrKind Unit :=
  if renameFails = true then
    match loggerWriter_write PyVal.osErr with
    | Except.ok _ => Except.ok ()
    | Except.error e => Except.error e
  else Except.ok ()

/-- Lines 336-339: set the session logged_in flag True, then walk every
provider and clear it when one is not logged in. -/
def aggregate_loop (provs : List (String × ProviderSession)) : Bool :=
  List.foldl (fun acc pr => if pr.2.logged_in = false then false else acc)
    true provs

/-- Recompute the session-level flag from the providers, as the loop does. -/
def recompute_login (s : Session) : Session :=
  { s with logged_in := aggregate_loop s.providers }

/-- Line 333: mark the resolved provider as logged in. -/
def mark_logged_in (s : Session) (provider : String) : Session :=
  { s with
    providers :=
      dictUpdate s.providers provider (fun ps => { ps with logged_in := true }) }

/-- Line 236: session.pop of outgoing_provider with the default
get_provider_str of the routed name and an empty handle. -/
def resolveReturnProvider (sess : Session) (urlProvider : String) : String :=
  sess.outgoing_provider.getD (get_provider_str urlProvider "")

/-- The session after the pop at line 236 removed the outgoing provider. -/
def popOutgoing (s : Session) : Session := { s with outgoing_provider := none }

/-- The observable result of one oauth_return request: the response or the
exception that propagated, the session as the request left it (Flask saves
the session dict even when the handler raises), and the external calls made. -/
structure ReturnResult where
  outcome : Except ErrKind Triad
  sess : Session
  calls : List NetCall

/-- Lines 229-341: the return route.  Each match models the source statement
that can raise at that point, in source order: the membership check at 237,
the key-file re-parse at 240, the field reads at 243-256, the token exchange
at 257, the identity fetch at 266-275, the writes and renames at 298-330,
and finally the login-flag updates at 332-339. -/
def oauth_return (sess0 : Session) (urlProvider : String) (w : World) :
    ReturnResult :=
  let provider := resolveReturnProvider sess0 urlProvider
  let s1 := popOutgoing sess0
  match alookup s1.providers provider with
  | none => ⟨Except.error ErrKind.unknownProvider, s1, []⟩
  | some ps =>
    match get_provider_ad provider w.ads with
    | Except.error e => ⟨Except.error e, s1, [NetCall.descriptorLookup]⟩
    | Except.ok ad =>
      match ad.ClientId with
      | none => ⟨Except.error ErrKind.keyError, s1, [NetCall.descriptorLookup]⟩
      | some client_id =>
      match ad.ReturnUrl with
      | none => ⟨Except.error ErrKind.keyError, s1, [NetCall.descriptorLookup]⟩
      | some _ =>
      match ps.state with
      | none => ⟨Except.error ErrKind.keyError, s1, [NetCall.descriptorLookup]⟩
      | some storedState =>
      match ad.ClientSecret with
      | none => ⟨Except.error ErrKind.keyError, s1, [NetCall.descriptorLookup]⟩
      | some client_secret =>
      match ad.TokenUrl with
      | none => ⟨Except.error ErrKind.keyError, s1, [NetCall.descriptorLookup]⟩
      | some token_url =>
      match fetch_token storedState w with
      | (Except.error e, fcalls) =>
        ⟨Except.error e, s1, NetCall.descriptorLookup :: fcalls⟩
      | (Except.ok token, fcalls) =>
        match ad.UserUrl with
        | none =>
          ⟨Except.error ErrKind.keyError, s1, NetCall.descriptorLookup :: fcalls⟩
        | some _ =>
          let calls2 := NetCall.descriptorLookup :: fcalls ++ [NetCall.identityFetch]
          match resolve_username w.identity with
          | Except.error e => ⟨Except.error e, s1, calls2⟩
          | Except.ok uname =>
            let s2 :=
              { s1 with
                providers :=
                  dictUpdate s1.providers provider
                    (fun q => { q with username := some uname }) }
            let stt := split_token token
            let triad : Triad :=
              { access := stt.1
              , refresh := [("refresh_token", stt.2.1)]
              , meta :=
                { client_id := client_id
                , client_secret := client_secret
                , token_url := token_url
                , use_refresh_token := stt.2.2 } }
            match rename_phase w.renameFails with
            | Except.error e => ⟨Except.error e, s2, calls2⟩
            | Except.ok _ =>
              ⟨Except.ok triad, recompute_login (mark_logged_in s2 provider), calls2⟩

theorem popOutgoing_providers (s : Session) :
    (popOutgoing s).providers = s.providers := rfl

theorem popOutgoing_logged_in (s : Session) :
    (popOutgoing s).logged_in = s.logged_in := rfl

theorem alookup_dictInsert {α : Type} (m : List (String × α)) (k : String)
    (v : α) (q : String) :
    alookup (dictInsert m k v) q = if k = q then some v else alookup m q := by
  induction m with
  | nil => rfl
  | cons hd tl ih =>
    obtain ⟨k1, v1⟩ := hd
    by_cases h1 : k1 = k
    · subst h1
      by_cases h2 : k1 = q <;> simp [dictInsert, alookup, h2]
    · by_cases h2 : k1 = q
      · subst h2
        have hkq : ¬ k = k1 := fun hh => h1 hh.symm
        simp [dictInsert, alookup, h1, hkq]
      · simp [dictInsert, alookup, h1, h2, ih]

theorem alookup_dictUpdate {α : Type} (m : List (String × α)) (k : String)
    (f : α → α) (q : String) :
    alookup (dictUpdate m k f) q
      = if q = k then (alookup m q).map f else alookup m q := by
  induction m with
  | nil => by_cases h : q = k <;> simp [dictUpdate, alookup, h]
  | cons hd tl ih =>
    obtain ⟨k1, v1⟩ := hd
    by_cases h1 : k1 = k
    · subst h1
      by_cases h2 : k1 = q
      · subst h2
        simp [dictUpdate, alookup, ih]
      · have hq : ¬ q = k1 := fun hh => h2 hh.symm
        by_cases h4 : q = k1 <;> simp [dictUpdate, alookup, h2, hq, ih]
    · by_cases h2 : k1 = q
      · subst h2
        have hq : ¬ k1 = k := h1
        simp [dictUpdate, alookup, h1, hq]
      · by_cases h4 : q = k
        · subst h4
          simp [dictUpdate, alookup, h1, h2, ih]
        · simp [dictUpdate, alookup, h1, h2, h4, ih]

theorem alookup_aerase_self (m : List (String × String)) (k : String) :
    alookup (aerase m k) k = none := by
  induction m with
  | nil => rfl
  | cons hd tl ih =>
    obtain ⟨k1, v1⟩ := hd
    by_cases h : k1 = k
    · simp [aerase, h, ih]
    · simp [aerase, alookup, h, ih]

theorem alookup_aerase_ne (m : List (String × String)) (k q : String)
    (h : q ≠ k) : alookup (aerase m k) q = alookup m q := by
  induction m with
  | nil => rfl
  | cons hd tl ih =>
    obtain ⟨k1, v1⟩ := hd
    by_cases h1 : k1 = k
    · subst h1
      have hq : ¬ k1 = q := fun hh => h (hh.symm)
      simp [aerase, alookup, hq, ih]
    · by_cases h2 : k1 = q <;> simp [aerase, alookup, h, h1, h2, ih]

theorem foldl_and_aux (l : List (String × ProviderSession)) (acc : Bool) :
    List.foldl (fun a pr => pr.2.logged_in && a) acc l
      = (acc && l.all (fun pr => pr.2.logged_in)) := by
  induction l generalizing acc with
  | nil => simp
  | cons hd tl ih =>
    simp only [List.foldl_cons, List.all_cons]
    rw [ih]
    cases acc <;> cases hd.2.logged_in <;> simp

theorem aggregate_loop_eq_all (provs : List (String × ProviderSession)) :
    aggregate_loop provs = provs.all (fun pr => pr.2.logged_in) := by
  have hfun :
      (fun (a : Bool) (pr : String × ProviderSession) =>
        if pr.2.logged_in = false then false else a)
      = (fun a pr => pr.2.logged_in && a) := by
    funext a pr
    cases hh : pr.2.logged_in <;> cases a <;> simp [hh]
  unfold aggregate_loop
  rw [hfun]
  simpa using foldl_and_aux provs true

theorem get_provider_str_empty_handle (u : String) :
    get_provider_str u "" = rstripSpaces u := by
  obtain ⟨l⟩ := u
  show rstripSpaces (String.mk l ++ " " ++ "") = rstripSpaces (String.mk l)
  have hdata : (String.mk l ++ " " ++ "").data = l ++ [' '] := by
    simp [String.data_append]
  simp [rstripSpaces, hdata, List.reverse_append, List.dropWhile]

theorem alookup_foldl_add (ads : List ClassAd)
    (m : List (String × ProviderSession)) (name : String) :
    alookup (List.foldl addProviderAd m ads) name
      = (match lastAdFor ads name with
         | some ad => some (initProvider ad)
         | none => alookup m name) := by
  induction ads generalizing m with
  | nil => rfl
  | cons ad rest ih =>
    show alookup (List.foldl addProviderAd (addProviderAd m ad) rest) name = _
    rw [ih]
    cases hl : lastAdFor rest name with
    | some a => simp [lastAdFor, hl]
    | none =>
      by_cases hd : ad.display = name
      · simp [lastAdFor, hl, hd, addProviderAd, alookup_dictInsert]
      · simp [lastAdFor, hl, hd, addProviderAd, alookup_dictInsert]

theorem mem_map_fst_dictInsert {α : Type} (m : List (String × α)) (k : String)
    (v : α) (q : String) :
    q ∈ (dictInsert m k v).map Prod.fst ↔ q = k ∨ q ∈ m.map Prod.fst := by
  induction m with
  | nil => simp [dictInsert]
  | cons hd tl ih =>
    obtain ⟨k1, v1⟩ := hd
    by_cases h : k1 = k
    · subst h
      have hd1 : dictInsert ((k1, v1) :: tl) k1 v = (k1, v) :: tl := by
        simp [dictInsert]
      rw [hd1]
      simp
      try tauto
    · have hd2 : dictInsert ((k1, v1) :: tl) k v
          = (k1, v1) :: dictInsert tl k v := by
        simp [dictInsert, h]
      rw [hd2]
      simp [ih]
      try tauto

theorem nodup_map_fst_dictInsert {α : Type} (m : List (String × α)) (k : String)
    (v : α) (h : (m.map Prod.fst).Nodup) :
    ((dictInsert m k v).map Prod.fst).Nodup := by
  induction m with
  | nil => simp [dictInsert]
  | cons hd tl ih =>
    obtain ⟨k1, v1⟩ := hd
    rw [List.map_cons, List.nodup_cons] at h
    by_cases hk : k1 = k
    · subst hk
      have hd1 : dictInsert ((k1, v1) :: tl) k1 v = (k1, v) :: tl := by
        simp [dictInsert]
      rw [hd1, List.map_cons, List.nodup_cons]
      exact h
    · have hd2 : dictInsert ((k1, v1) :: tl) k v
          = (k1, v1) :: dictInsert tl k v := by
        simp [dictInsert, hk]
      rw [hd2, List.map_cons, List.nodup_cons]
      refine ⟨?_, ih h.2⟩
      intro hc
      rw [mem_map_fst_dictInsert] at hc
      rcases hc with hc | hc
      · exact hk hc
      · exact h.1 hc

theorem nodup_foldl_add (ads : List ClassAd)
    (m : List (String × ProviderSession)) (h : (m.map Prod.fst).Nodup) :
    ((List.foldl addProviderAd m ads).map Prod.fst).Nodup := by
  induction ads generalizing m with
  | nil => exact h
  | cons ad rest ih =>
    exact ih (addProviderAd m ad) (nodup_map_fst_dictInsert m ad.display (initProvider ad) h)

/-- The local username carried by a parse result, for stating which username
a built session ends up with. -/
def sessionUser : Except ErrKind Session → Option String
  | Except.ok s => some s.local_username
  | Except.error _ => none

/-- A fully populated key-file record for one provider named box. -/
def wAd : ClassAd :=
  { Provider := "box"
  , ClientId := some "cid"
  , ClientSecret := some "sec"
  , AuthorizationUrl := some "https://auth"
  , TokenUrl := some "https://tok"
  , ReturnUrl := some "https://ret"
  , UserUrl := some "https://user"
  , LocalUser := some "alice" }

/-- The box provider sub-dict after oauth_login stored a CSRF state. -/
def wPs : ProviderSession := { state := some "S1" }

/-- A session holding the box provider, mid-flow: state stored and the
outgoing provider recorded by oauth_login. -/
def wSess : Session :=
  { key_path := "kp"
  , providers := [("box", wPs)]
  , logged_in := false
  , local_username := "alice"
  , outgoing_provider := some "box" }

/-- External inputs of a fully successful callback: matching state, valid
code, a token response with a refresh token, a JSON identity body, and
renames that succeed. -/
def wGood : World :=
  { ads := [wAd]
  , callbackState := "S1"
  , codeValid := true
  , tokenFields := [("access_token", "a1"), ("refresh_token", "r1")]
  , identity := IdentityResult.jsonBody [("login", "alice")]
  , renameFails := false }

/-- The same callback with a wrong state embedded in the callback URL. -/
def wBadState : World := { wGood with callbackState := "EVIL" }

/-- The same callback with every atomic_rename raising OSError. -/
def wRenameFail : World := { wGood with renameFails := true }

/-- The same callback but the identity GET itself fails (not a ValueError). -/
def wConnErr : World := { wGood with identity := IdentityResult.connectionError }

/-- The triad oauth_return writes for wGood. -/
def wTriad : Triad :=
  { access := [("access_token", "a1")]
  , refresh := [("refresh_token", "r1")]
  , meta :=
    { client_id := "cid"
    , client_secret := "sec"
    , token_url := "https://tok"
    , use_refresh_token := true } }

/-- The session after the successful wGood callback: username resolved,
provider marked logged in, aggregate flag recomputed. -/
def wSessDone : Session :=
  { key_path := "kp"
  , providers :=
      [("box", { logged_in := true, state := some "S1", username := some "alice" })]
  , logged_in := true
  , local_username := "alice"
  , outgoing_provider := none }

/-- The calls a full successful callback performs, in order. -/
def wCalls : List NetCall :=
  [NetCall.descriptorLookup, NetCall.tokenExchange, NetCall.identityFetch]

example : oauth_return wSess "box" wGood = ⟨Except.ok wTriad, wSessDone, wCalls⟩ := by
  rfl

/-- Claim C5, counterexample: the routed key 0z contains the non-hex
character z, yet it passes the format check at line 143 (re.match is
unanchored at the end and already matches on the leading 0) and reaches the
file-existence check, instead of being rejected with a format error. -/
theorem hex_check_unanchored_cx :
    isHexChar 'z' = false ∧ 'z' ∈ "0z".data ∧
    key_route "0z" false [] "cred/0z" = KeyStep.notFound := by
  refine ⟨rfl, ?_, rfl⟩
  decide

/-- Claim C5, amended: the key route rejects with a format error exactly the
keys that do not BEGIN with a hexadecimal character (the empty key
included); a key whose first character is a hex digit reaches the
file-existence check even when later characters are not hex, because
re.match with an unanchored pattern only tests a prefix. -/
theorem hex_check_amended (k : String) (fe : Bool) (ads : List ClassAd)
    (kp : String) (c : Char) (cs : List Char) (hdata : k.data = c :: cs) :
    (key_route k fe ads kp = KeyStep.formatError ↔ re_match_hex k = false) ∧
    (key_route k fe ads kp = KeyStep.formatError ↔ isHexChar c = false) := by
  have hre : re_match_hex k = isHexChar c := by
    unfold re_match_hex
    rw [hdata]
  have hmain : key_route k fe ads kp = KeyStep.formatError ↔ re_match_hex k = false := by
    unfold key_route
    by_cases h : re_match_hex k = false
    · simp [h]
    · cases fe <;> simp [h]
  exact ⟨hmain, by rw [hmain, hre]⟩

/-- Witness for the amended C5 theorem at the concrete key 0z with a leading
hex digit followed by a non-hex character. -/
theorem hex_check_amended_witness :
    (key_route "0z" false [] "cred/0z" = KeyStep.formatError
      ↔ re_match_hex "0z" = false) ∧
    (key_route "0z" false [] "cred/0z" = KeyStep.formatError
      ↔ isHexChar '0' = false) :=
  hex_check_amended "0z" false [] "cred/0z" '0' ['z'] rfl

/-- Two key-file records with divergent LocalUser fields. -/
def uAd1 : ClassAd := { Provider := "p1", LocalUser := some "u1" }

/-- Second divergent record; its LocalUser wins because it comes last. -/
def uAd2 : ClassAd := { Provider := "p2", LocalUser := some "u2" }

/-- Claim C9: when the records of a key file carry divergent LocalUser
values, the session is built successfully and its local username is the
LocalUser of the LAST record in file order, line 172-173 reading the loop
variable after the loop. -/
theorem local_username_last_record (ads : List ClassAd) (kp : String)
    (lastAd : ClassAd) (lu : String)
    (hlast : ads.getLast? = some lastAd)
    (hlu : lastAd.LocalUser = some lu)
    (hdiv : ∃ a, a ∈ ads ∧ ∃ b, b ∈ ads ∧ a.LocalUser ≠ b.LocalUser) :
    sessionUser (key_session ads kp) = some lu := by
  simp [key_session, hlast, hlu, sessionUser]

/-- Witness for C9 on a concrete two-record key file whose records disagree
on LocalUser: the second record wins. -/
theorem local_username_last_record_witness :
    sessionUser (key_session [uAd1, uAd2] "kp") = some "u2" :=
  local_username_last_record [uAd1, uAd2] "kp" uAd2 "u2" rfl rfl
    ⟨uAd1, by simp, uAd2, by simp, by decide⟩

/-- Claim C6, counterexample: when the identity GET itself fails (a requests
connection error, which is not the ValueError the except clause catches),
oauth_return does not resolve the username to Unknown: the exception
propagates and the whole callback fails, on inputs that would otherwise
complete successfully. -/
theorem identity_failure_fatal_cx :
    (oauth_return wSess "box" wConnErr).outcome
        = Except.error ErrKind.connectionError ∧
    (oauth_return wSess "box" wConnErr).outcome.isOk = false := by
  exact ⟨rfl, rfl⟩

/-- Claim C6, amended: the username resolved from the identity response is
the login field when present, else the sub field when present, else
Unknown; a non-JSON body (the ValueError case) also resolves to Unknown
without raising; but any identity-fetch failure that is not a ValueError,
such as a connection error of the GET, propagates and is fatal to the
callback, because line 274 catches only ValueError. -/
theorem identity_resolution_amended (fields : List (String × String)) :
    resolve_username (IdentityResult.jsonBody fields)
      = Except.ok
          (match alookup fields "login" with
           | some v => v
           | none =>
             match alookup fields "sub" with
             | some v => v
             | none => "Unknown") ∧
    resolve_username IdentityResult.nonJsonBody = Except.ok "Unknown" ∧
    resolve_username IdentityResult.connectionError
      = Except.error ErrKind.connectionError := by
  refine ⟨?_, rfl, rfl⟩
  cases h1 : alookup fields "login" with
  | some v => simp [resolve_username, h1]
  | none =>
    cases h2 : alookup fields "sub" with
    | some v => simp [resolve_username, h1, h2]
    | none => simp [resolve_username, h1, h2]

/-- Claim C1: whenever the state embedded in the callback URL differs from
the state stored on the provider sub-dict at login time, the callback fails
with the CSRF mismatch error, whatever the validity of the authorization
code, and neither the token exchange nor the identity fetch is performed.
The hypotheses state that the flow reaches the state comparison: the
resolved provider is in the session, its descriptor is found in the key
file, the fields read before the exchange are present, and a stored state
exists. -/
theorem csrf_mismatch_aborts_exchange (sess0 : Session) (u : String) (w : World)
    (ps : ProviderSession) (ad : ClassAd) (cid ru st cs tu : String)
    (hps : alookup (popOutgoing sess0).providers (resolveReturnProvider sess0 u)
        = some ps)
    (had : get_provider_ad (resolveReturnProvider sess0 u) w.ads = Except.ok ad)
    (hcid : ad.ClientId = some cid)
    (hru : ad.ReturnUrl = some ru)
    (hst : ps.state = some st)
    (hcs : ad.ClientSecret = some cs)
    (htu : ad.TokenUrl = some tu)
    (hmm : w.callbackState ≠ st) :
    (oauth_return sess0 u w).outcome = Except.error ErrKind.csrfMismatch ∧
    NetCall.tokenExchange ∉ (oauth_return sess0 u w).calls ∧
    NetCall.identityFetch ∉ (oauth_return sess0 u w).calls := by
  have hft : fetch_token st w
      = (Except.error ErrKind.csrfMismatch, ([] : List NetCall)) := by
    unfold fetch_token
    rw [if_neg hmm]
  simp only [oauth_return, hps, had, hcid, hru, hst, hcs, htu, hft]
  exact ⟨by trivial, by decide, by decide⟩

/-- Witness for C1: the concrete box session with a callback carrying the
wrong state and an otherwise valid code aborts with the mismatch error and
makes no network call. -/
theorem csrf_mismatch_aborts_exchange_witness :
    (oauth_return wSess "box" wBadState).outcome
        = Except.error ErrKind.csrfMismatch ∧
    NetCall.tokenExchange ∉ (oauth_return wSess "box" wBadState).calls ∧
    NetCall.identityFetch ∉ (oauth_return wSess "box" wBadState).calls :=
  csrf_mismatch_aborts_exchange wSess "box" wBadState wPs wAd
    "cid" "https://ret" "S1" "sec" "https://tok"
    rfl rfl rfl rfl rfl rfl rfl (by decide)

/-- Claim C2, counterexample: on the concrete successful flow with every
atomic_rename raising OSError, the error that surfaces from oauth_return is
the AttributeError raised inside the except handler (line 330 passes the
exception object to LoggerWriter.write), not a propagation of the OSError
itself, i.e. not the PersistenceError of the claim: the handler caught and
swallowed the OSError. -/
theorem rename_failure_not_persistence_cx :
    (oauth_return wSess "box" wRenameFail).outcome
        = Except.error ErrKind.attributeError ∧
    ErrKind.attributeError ≠ ErrKind.osError := by
  exact ⟨rfl, by decide⟩

/-- Claim C2, amended: when one of the three atomic renames raises OSError
on a flow that reached the rename phase, the except clause catches and
swallows the OSError and tries to log it; that log call itself raises
AttributeError, so the login attempt does fail, but with AttributeError
rather than a PersistenceError, and the provider is not marked logged in:
every provider keeps the logged-in flag it had before the request, and the
session flag is unchanged.  q ranges over any provider name. -/
theorem rename_failure_amended (sess0 : Session) (u : String) (w : World)
    (ps : ProviderSession) (ad : ClassAd) (cid ru st cs tu uu uname q : String)
    (hps : alookup (popOutgoing sess0).providers (resolveReturnProvider sess0 u)
        = some ps)
    (had : get_provider_ad (resolveReturnProvider sess0 u) w.ads = Except.ok ad)
    (hcid : ad.ClientId = some cid)
    (hru : ad.ReturnUrl = some ru)
    (hst : ps.state = some st)
    (hcs : ad.ClientSecret = some cs)
    (htu : ad.TokenUrl = some tu)
    (hcb : w.callbackState = st)
    (hcv : w.codeValid = true)
    (huu : ad.UserUrl = some uu)
    (hid : resolve_username w.identity = Except.ok uname)
    (hrf : w.renameFails = true) :
    (oauth_return sess0 u w).outcome = Except.error ErrKind.attributeError ∧
    (alookup (oauth_return sess0 u w).sess.providers q).map
        (fun pr => pr.logged_in)
      = (alookup sess0.providers q).map (fun pr => pr.logged_in) ∧
    (oauth_return sess0 u w).sess.logged_in = sess0.logged_in := by
  have hft : fetch_token st w
      = (Except.ok w.tokenFields, [NetCall.tokenExchange]) := by
    unfold fetch_token
    rw [hcb]
    simp [hcv]
  have hrp : rename_phase w.renameFails = Except.error ErrKind.attributeError := by
    rw [hrf]
    rfl
  simp only [oauth_return, hps, had, hcid, hru, hst, hcs, htu, hft, huu, hid, hrp]
  refine ⟨by trivial, ?_, by trivial⟩
  show (alookup
      (dictUpdate (popOutgoing sess0).providers (resolveReturnProvider sess0 u)
        (fun pr => { pr with username := some uname })) q).map
      (fun pr => pr.logged_in)
    = (alookup sess0.providers q).map (fun pr => pr.logged_in)
  rw [alookup_dictUpdate, popOutgoing_providers]
  by_cases hq : q = resolveReturnProvider sess0 u
  · rw [if_pos hq]
    cases alookup sess0.providers q <;> rfl
  · rw [if_neg hq]

/-- Witness for the amended C2 theorem on the concrete failing-rename flow,
checking the box provider flag in particular. -/
theorem rename_failure_amended_witness :
    (oauth_return wSess "box" wRenameFail).outcome
        = Except.error ErrKind.attributeError ∧
    (alookup (oauth_return wSess "box" wRenameFail).sess.providers "box").map
        (fun pr => pr.logged_in)
      = (alookup wSess.providers "box").map (fun pr => pr.logged_in) ∧
    (oauth_return wSess "box" wRenameFail).sess.logged_in = wSess.logged_in :=
  rename_failure_amended wSess "box" wRenameFail wPs wAd
    "cid" "https://ret" "S1" "sec" "https://tok" "https://user" "alice" "box"
    rfl rfl rfl rfl rfl rfl rfl rfl rfl rfl rfl rfl

/-- Claim C3: on a callback that completes, the written triad is the
split_token decomposition of the provider token response: the access file
never contains the refresh_token key but agrees with the response on every
other key, the refresh file is exactly the one-entry refresh_token object
(the empty string when the response carried none), and the metadata flag
use_refresh_token is the presence of refresh_token in the response.  k
ranges over any key other than refresh_token. -/
theorem token_splitting_correct (sess0 : Session) (u : String) (w : World)
    (ps : ProviderSession) (ad : ClassAd) (cid ru st cs tu uu uname k : String)
    (hps : alookup (popOutgoing sess0).providers (resolveReturnProvider sess0 u)
        = some ps)
    (had : get_provider_ad (resolveReturnProvider sess0 u) w.ads = Except.ok ad)
    (hcid : ad.ClientId = some cid)
    (hru : ad.ReturnUrl = some ru)
    (hst : ps.state = some st)
    (hcs : ad.ClientSecret = some cs)
    (htu : ad.TokenUrl = some tu)
    (hcb : w.callbackState = st)
    (hcv : w.codeValid = true)
    (huu : ad.UserUrl = some uu)
    (hid : resolve_username w.identity = Except.ok uname)
    (hrf : w.renameFails = false)
    (hk : k ≠ "refresh_token") :
    (oauth_return sess0 u w).outcome
      = Except.ok
          { access := (split_token w.tokenFields).1
          , refresh := [("refresh_token", (split_token w.tokenFields).2.1)]
          , meta :=
            { client_id := cid
            , client_secret := cs
            , token_url := tu
            , use_refresh_token := (split_token w.tokenFields).2.2 } } ∧
    alookup (split_token w.tokenFields).1 "refresh_token" = none ∧
    alookup (split_token w.tokenFields).1 k = alookup w.tokenFields k ∧
    (split_token w.tokenFields).2.1
      = (alookup w.tokenFields "refresh_token").getD "" ∧
    (split_token w.tokenFields).2.2
      = (alookup w.tokenFields "refresh_token").isSome ∧
    (split_token w.tokenFields).1
      = (if (alookup w.tokenFields "refresh_token").isSome
         then aerase w.tokenFields "refresh_token" else w.tokenFields) := by
  have hft : fetch_token st w
      = (Except.ok w.tokenFields, [NetCall.tokenExchange]) := by
    unfold fetch_token
    rw [hcb]
    simp [hcv]
  have hrp : rename_phase w.renameFails = Except.ok () := by
    rw [hrf]
    rfl
  refine ⟨?_, ?_, ?_, ?_, ?_, ?_⟩
  · simp only [oauth_return, hps, had, hcid, hru, hst, hcs, htu, hft, huu, hid, hrp]
  · cases hr : alookup w.tokenFields "refresh_token" with
    | some v => simp [split_token, hr, alookup_aerase_self]
    | none => simp [split_token, hr]
  · cases hr : alookup w.tokenFields "refresh_token" with
    | some v => simp [split_token, hr, alookup_aerase_ne _ _ _ hk]
    | none => simp [split_token, hr]
  · cases hr : alookup w.tokenFields "refresh_token" with
    | some v => simp [split_token, hr]
    | none => simp [split_token, hr]
  · cases hr : alookup w.tokenFields "refresh_token" with
    | some v => simp [split_token, hr]
    | none => simp [split_token, hr]
  · cases hr : alookup w.tokenFields "refresh_token" with
    | some v => simp [split_token, hr]
    | none => simp [split_token, hr]

/-- Witness for C3 on the concrete successful flow whose token response has
a refresh token, checking the access_token key in particular. -/
theorem token_splitting_correct_witness :
    (oauth_return wSess "box" wGood).outcome
      = Except.ok
          { access := (split_token wGood.tokenFields).1
          , refresh := [("refresh_token", (split_token wGood.tokenFields).2.1)]
          , meta :=
            { client_id := "cid"
            , client_secret := "sec"
            , token_url := "https://tok"
            , use_refresh_token := (split_token wGood.tokenFields).2.2 } } ∧
    alookup (split_token wGood.tokenFields).1 "refresh_token" = none ∧
    alookup (split_token wGood.tokenFields).1 "access_token"
      = alookup wGood.tokenFields "access_token" ∧
    (split_token wGood.tokenFields).2.1
      = (alookup wGood.tokenFields "refresh_token").getD "" ∧
    (split_token wGood.tokenFields).2.2
      = (alookup wGood.tokenFields "refresh_token").isSome ∧
    (split_token wGood.tokenFields).1
      = (if (alookup wGood.tokenFields "refresh_token").isSome
         then aerase wGood.tokenFields "refresh_token" else wGood.tokenFields) :=
  token_splitting_correct wSess "box" wGood wPs wAd
    "cid" "https://ret" "S1" "sec" "https://tok" "https://user" "alice"
    "access_token" rfl rfl rfl rfl rfl rfl rfl rfl rfl rfl rfl rfl (by decide)

/-- Claim C4: whenever oauth_return completes (its outcome is a triad), the
session-level logged_in flag it leaves equals the conjunction over every
provider of the per-provider logged_in flag, because lines 336-339 recompute
it by scanning all providers after marking the resolved one. -/
theorem aggregate_login_invariant (sess0 : Session) (u : String) (w : World)
    (t : Triad) (s : Session) (calls : List NetCall)
    (h : oauth_return sess0 u w = ⟨Except.ok t, s, calls⟩) :
    s.logged_in = s.providers.all (fun pr => pr.2.logged_in) := by
  simp only [oauth_return] at h
  repeat' split at h
  all_goals simp only [ReturnResult.mk.injEq] at h
  all_goals first
    | exact Except.noConfusion h.1
    | (obtain ⟨h1, h2, h3⟩ := h
       subst h2
       simp [recompute_login, aggregate_loop_eq_all])

/-- Witness for C4 on the concrete successful flow: the aggregate flag of the
resulting session is the conjunction of its provider flags. -/
theorem aggregate_login_invariant_witness :
    wSessDone.logged_in = wSessDone.providers.all (fun pr => pr.2.logged_in) :=
  aggregate_login_invariant wSess "box" wGood wTriad wSessDone wCalls rfl

/-- Claim C7: the callback resolves the acting provider by preferring the
in-flight provider that oauth_login recorded under outgoing_provider over
the name supplied in the callback path (line 236), and when the resolved
name is not among the session providers it fails with the unknown-provider
error immediately: the returned call list is empty, so no key-file
descriptor lookup and no network call happened, and the session is left
with only the pop applied.  The fallback case with no in-flight provider is
settled separately with the fallback-resolution theorem. -/
theorem provider_resolution_prefers_inflight (sess0 : Session) (u : String)
    (w : World) (p : String)
    (hout : sess0.outgoing_provider = some p)
    (hmem : alookup sess0.providers (resolveReturnProvider sess0 u) = none) :
    resolveReturnProvider sess0 u = p ∧
    oauth_return sess0 u w
      = ⟨Except.error ErrKind.unknownProvider, popOutgoing sess0, []⟩ := by
  have hres : resolveReturnProvider sess0 u = p := by
    unfold resolveReturnProvider
    rw [hout]
    rfl
  refine ⟨hres, ?_⟩
  have hmem2 : alookup (popOutgoing sess0).providers (resolveReturnProvider sess0 u)
      = none := by
    rw [popOutgoing_providers]
    exact hmem
  simp only [oauth_return, hmem2]

/-- Witness for C7: a session whose in-flight provider zzz is not a key of
the providers dict, called back under the valid name box: the in-flight name
wins, and oauth_return aborts before any lookup or network call. -/
theorem provider_resolution_prefers_inflight_witness :
    resolveReturnProvider
        { key_path := "kp"
        , providers := [("box", wPs)]
        , logged_in := false
        , local_username := "alice"
        , outgoing_provider := some "zzz" } "box" = "zzz" ∧
    oauth_return
        { key_path := "kp"
        , providers := [("box", wPs)]
        , logged_in := false
        , local_username := "alice"
        , outgoing_provider := some "zzz" } "box" wGood
      = ⟨Except.error ErrKind.unknownProvider
        , popOutgoing
            { key_path := "kp"
            , providers := [("box", wPs)]
            , logged_in := false
            , local_username := "alice"
            , outgoing_provider := some "zzz" }
        , []⟩ :=
  provider_resolution_prefers_inflight
    { key_path := "kp"
    , providers := [("box", wPs)]
    , logged_in := false
    , local_username := "alice"
    , outgoing_provider := some "zzz" } "box" wGood "zzz" rfl rfl

/-- A descriptor whose Handle is non-empty, so its display name is gh work. -/
def hAd : ClassAd :=
  { Provider := "gh"
  , Handle := some "work"
  , ClientId := some "cid"
  , ClientSecret := some "sec"
  , AuthorizationUrl := some "https://auth"
  , TokenUrl := some "https://tok"
  , ReturnUrl := some "https://ret"
  , UserUrl := some "https://user"
  , LocalUser := some "alice" }

/-- A session holding only the gh work provider, with a stored state but no
in-flight provider recorded, so the callback takes the fallback path. -/
def hSess : Session :=
  { key_path := "kp"
  , providers := [("gh work", wPs)]
  , logged_in := false
  , local_username := "alice"
  , outgoing_provider := none }

/-- External inputs for a successful gh work callback. -/
def hWorld : World := { wGood with ads := [hAd] }

/-- Claim C10, counterexample: the gh work provider has a non-empty handle,
yet with no in-flight provider recorded the fallback path resolves it: the
URL may carry the full display string gh work (the path converter accepts
spaces), get_provider_str of it with an empty handle returns it unchanged,
and the callback completes instead of failing with the unknown-provider
error.  So the fallback can reach providers with non-empty handles. -/
theorem fallback_resolves_full_display_cx :
    (some "work" : Option String) ≠ some "" ∧
    hSess.outgoing_provider = none ∧
    resolveReturnProvider hSess "gh work" = get_provider_str "gh" "work" ∧
    (oauth_return hSess "gh work" hWorld).outcome.isOk = true := by
  exact ⟨by decide, rfl, rfl, rfl⟩

/-- Claim C10, amended: with no in-flight provider recorded, the callback
resolves the provider as get_provider_str of the URL-supplied name and an
empty handle, which is the URL name stripped of trailing spaces; hence a
provider registered under a display name with a non-empty handle is reached
by the fallback only when the URL carries that full display string, and a
URL carrying a name that is not a providers key (such as the bare provider
name) fails with the unknown-provider error.  The in-flight record is
consumed: the session the request leaves has no outgoing provider. -/
theorem fallback_resolution_amended (sess0 : Session) (u : String) (w : World)
    (hout : sess0.outgoing_provider = none)
    (hmem : alookup sess0.providers (rstripSpaces u) = none) :
    resolveReturnProvider sess0 u = get_provider_str u "" ∧
    get_provider_str u "" = rstripSpaces u ∧
    (oauth_return sess0 u w).outcome = Except.error ErrKind.unknownProvider ∧
    (oauth_return sess0 u w).sess.outgoing_provider = none := by
  have hres : resolveReturnProvider sess0 u = get_provider_str u "" := by
    unfold resolveReturnProvider
    rw [hout]
    rfl
  have hre : get_provider_str u "" = rstripSpaces u :=
    get_provider_str_empty_handle u
  have hmem2 : alookup (popOutgoing sess0).providers (resolveReturnProvider sess0 u)
      = none := by
    rw [popOutgoing_providers, hres, hre]
    exact hmem
  refine ⟨hres, hre, ?_, ?_⟩ <;> simp only [oauth_return, hmem2] <;> rfl

/-- Witness for the amended C10 theorem: the gh work session called back
under the bare provider name gh fails with the unknown-provider error and
its in-flight record stays consumed. -/
theorem fallback_resolution_amended_witness :
    resolveReturnProvider hSess "gh" = get_provider_str "gh" "" ∧
    get_provider_str "gh" "" = rstripSpaces "gh" ∧
    (oauth_return hSess "gh" hWorld).outcome
      = Except.error ErrKind.unknownProvider ∧
    (oauth_return hSess "gh" hWorld).sess.outgoing_provider = none :=
  fallback_resolution_amended hSess "gh" hWorld rfl rfl

/-- A record with provider a and handle b: display name a b. -/
def cAd1 : ClassAd := { Provider := "a", Handle := some "b", LocalUser := some "u" }

/-- A record with provider a b and no handle: the same display name a b. -/
def cAd2 : ClassAd := { Provider := "a b", LocalUser := some "u" }

/-- The session the key route builds from the two colliding records: a
single provider entry, seeded from the later record. -/
def cSess : Session :=
  { key_path := "kp"
  , providers := [("a b", initProvider cAd2)]
  , logged_in := false
  , local_username := "u"
  , outgoing_provider := none }

/-- Claim C8, counterexample: the two records carry DISTINCT Provider-Handle
pairs, yet their display names collide (provider a with handle b versus
provider a b with no handle both display as a b), so the session holds one
ProviderSession, not one per distinct pair: the providers dict is keyed by
the display string, not by the pair. -/
theorem distinct_pair_collision_cx :
    (cAd1.Provider, cAd1.Handle.getD "") ≠ (cAd2.Provider, cAd2.Handle.getD "") ∧
    cAd1.display = cAd2.display ∧
    key_session [cAd1, cAd2] "kp" = Except.ok cSess ∧
    cSess.providers.length = 1 := by
  exact ⟨by decide, rfl, rfl, rfl⟩

/-- Every record of the file makes lastAdFor of its display name a hit:
some record displaying that name survives to the end of the scan. -/
theorem lastAdFor_isSome_of_mem (ads : List ClassAd) (ad : ClassAd)
    (name : String) (hmem : ad ∈ ads) (hdisp : ad.display = name) :
    (lastAdFor ads name).isSome = true := by
  induction ads with
  | nil => cases hmem
  | cons hd tl ih =>
    rcases List.mem_cons.mp hmem with h | h
    · subst h
      cases hl : lastAdFor tl name with
      | some a => simp [lastAdFor, hl]
      | none => simp [lastAdFor, hl, hdisp]
    · have htl := ih h
      cases hl : lastAdFor tl name with
      | some a => simp [lastAdFor, hl]
      | none =>
        rw [hl] at htl
        simp at htl

/-- Claim C8, amended: for every valid key file, createSession produces
exactly one ProviderSession per distinct DISPLAY NAME get_provider_str of
Provider and Handle, rather than per distinct pair (distinct pairs with
equal display names collapse into one entry).  Exactly one means both
directions: every record in the file yields an entry under its display name
(existence), and the dict keys carry no duplicates (uniqueness).  The entry
stored under a name is the initProvider seed of the last record displaying
that name, hence it holds logged_in false, the comma-split stripped Scopes
when present and the Audience when present, as initProvider states; the
logged-out initialization is also stated explicitly. -/
theorem create_session_providers_amended (ads : List ClassAd) (kp : String)
    (s : Session) (name : String) (ad : ClassAd)
    (hok : key_session ads kp = Except.ok s)
    (hmem : ad ∈ ads)
    (hdisp : ad.display = name) :
    (s.providers.map Prod.fst).Nodup ∧
    alookup s.providers name = (lastAdFor ads name).map initProvider ∧
    (alookup s.providers name).isSome = true ∧
    (alookup s.providers name).map (fun pr => pr.logged_in) = some false := by
  simp only [key_session] at hok
  repeat' split at hok
  · exact Except.noConfusion hok
  · exact Except.noConfusion hok
  · rw [Except.ok.injEq] at hok
    subst hok
    have h2 : alookup (List.foldl addProviderAd [] ads) name
        = (lastAdFor ads name).map initProvider := by
      rw [alookup_foldl_add]
      cases hl : lastAdFor ads name with
      | some a => rfl
      | none => rfl
    have hsome : (lastAdFor ads name).isSome = true :=
      lastAdFor_isSome_of_mem ads ad name hmem hdisp
    obtain ⟨a, hl⟩ := Option.isSome_iff_exists.mp hsome
    refine ⟨nodup_foldl_add ads [] (by simp), h2, ?_, ?_⟩
    · dsimp only
      rw [h2, hl]
      rfl
    · dsimp only
      rw [h2, hl]
      rfl

/-- The session built from the single box record. -/
def wKeySess : Session :=
  { key_path := "kp"
  , providers := [("box", initProvider wAd)]
  , logged_in := false
  , local_username := "alice"
  , outgoing_provider := none }

/-- Witness for the amended C8 theorem on a concrete one-record key file:
the box record yields exactly the box entry, present and logged out. -/
theorem create_session_providers_amended_witness :
    (wKeySess.providers.map Prod.fst).Nodup ∧
    alookup wKeySess.providers "box" = (lastAdFor [wAd] "box").map initProvider ∧
    (alookup wKeySess.providers "box").isSome = true ∧
    (alookup wKeySess.providers "box").map (fun pr => pr.logged_in)
      = some false :=
  create_session_providers_amended [wAd] "kp" wKeySess "box" wAd
    rfl (List.mem_singleton.mpr rfl) rfl
